import Mathlib

/-!
# Moodify front end — shallow embedding

Embedding of the Moodify single-page front end (`src/pages/index.tsx`,
first `Home` component: the live-backend variant the spec's line
references point at).  JS numbers are modelled as rationals together
with an explicit not-a-number marker; the DOM/network boundary is
modelled by explicit outcome values fed to the `analyze` transition.
-/

namespace Moodify

/-! ## Models of the JS primitives used by the page -/

/-- Model of JS `String.prototype.toLowerCase` on basic latin letters:
each character is lowercased independently (`Char.toLower` lowers
exactly `A`–`Z`, matching the labels this page handles). -/
def jsToLower (s : String) : String :=
  String.mk (s.data.map Char.toLower)

/-- A JS number that is either an actual (finite) value or `NaN`.
JSON never deserialises to `NaN`, but `parseFloat` can produce it. -/
inductive JSNum where
  | finite (q : ℚ)
  | nan
  deriving DecidableEq, Repr

/-- Value of a digit string, most significant first. -/
def digitsToNat (cs : List Char) : Nat :=
  cs.foldl (fun a c => 10 * a + (c.toNat - 48)) 0

/-- Model of JS `parseFloat` restricted to plain decimal notation
(optional leading whitespace, optional sign, integer digits, optional
fractional digits); `none` models the `NaN` result on inputs with no
leading numeric prefix. -/
def parseFloat (s : String) : Option ℚ :=
  let cs := s.data.dropWhile Char.isWhitespace
  let signed : ℚ × List Char :=
    match cs with
    | '-' :: rest => (-1, rest)
    | '+' :: rest => (1, rest)
    | _ => (1, cs)
  let ip := signed.2.takeWhile Char.isDigit
  let after := signed.2.dropWhile Char.isDigit
  let fp : List Char :=
    match after with
    | '.' :: rest => rest.takeWhile Char.isDigit
    | _ => []
  if ip.isEmpty && fp.isEmpty then none
  else some (signed.1 * ((digitsToNat ip : ℚ) + (digitsToNat fp : ℚ) / (10 : ℚ) ^ fp.length))

/-- Model of JS `String.prototype.trim`: strip leading and trailing
whitespace. -/
def jsTrim (s : String) : String :=
  String.mk (((s.data.dropWhile Char.isWhitespace).reverse.dropWhile Char.isWhitespace).reverse)

/-- JS truthiness of an optional string field: absent (`undefined`) and
the empty string are falsy, every other string is truthy.  This is the
`!data.mood` test of the source. -/
def jsTruthyStr : Option String → Bool
  | none => false
  | some s => s != ""

/-! ## Data model (`src/pages/index.tsx`) -/

/-- `type PredictionResult = { mood: string; score: number }`
(source lines 5–8); only finite scores are ever stored. -/
structure PredictionResult where
  mood : String
  score : ℚ
  deriving DecidableEq, Repr

/-- The `prediction` field of the backend body: the source handles a
number (`typeof data.prediction === 'number'`) and otherwise coerces
through `parseFloat`, so a string. -/
inductive PredValue where
  | num (q : ℚ)
  | str (s : String)
  deriving DecidableEq, Repr

/-- The parsed JSON body of the backend response, with the two fields
the source reads; `none` models an absent (`undefined`) field. -/
structure BackendData where
  mood : Option String
  prediction : Option PredValue
  deriving DecidableEq, Repr

/-- `moodEmojis` lookup table (source lines 10–16). -/
def moodEmojis : List (String × String) :=
  [("positive", "😄"), ("negative", "😢"), ("mildly positive", "🙂"),
   ("mildly negative", "🙁"), ("neutral", "😐")]

/-- `moodColors` lookup table (source lines 18–24). -/
def moodColors : List (String × String) :=
  [("mildly positive", "from-yellow-300 to-yellow-500"),
   ("mildly negative", "from-blue-300 to-blue-500"),
   ("positive", "from-green-300 to-green-500"),
   ("negative", "from-red-300 to-red-500"),
   ("neutral", "from-gray-300 to-gray-500")]

/-- Initial value of the `moodColor` state (source line 31). -/
def defaultMoodColor : String := "from-blue-100 to-purple-100"

/-- `table[key] || dflt`: a JS record lookup with falsy fallback —
an absent key or an empty-string value yields the default. -/
def lookupOrDefault (tbl : List (String × String)) (key dflt : String) : String :=
  match tbl.lookup key with
  | some v => if v != "" then v else dflt
  | none => dflt

/-- The component's local state (`useState` hooks, source lines 27–32),
together with the textarea ref/focus status used by `resetForm`. -/
structure UIState where
  text : String
  result : Option PredictionResult
  loading : Bool
  error : String
  moodColor : String
  textareaMounted : Bool
  inputFocused : Bool
  deriving DecidableEq, Repr

/-- The state the hooks initialise to. -/
def initialState : UIState :=
  { text := "", result := none, loading := false, error := "",
    moodColor := defaultMoodColor, textareaMounted := true, inputFocused := false }

/-! ## Operations (`src/pages/index.tsx`) -/

/-- The `useEffect` on `[result]` (source lines 34–38): when a result
with a truthy mood is present, `moodColor` becomes the table entry for
that mood, falling back to the default gradient. -/
def applyMoodEffect (s : UIState) : UIState :=
  match s.result with
  | some r =>
      if r.mood != "" then
        { s with moodColor := lookupOrDefault moodColors r.mood defaultMoodColor }
      else s
  | none => s

/-- Score derived from one `prediction` value (source lines 66–69):
`typeof data.prediction === 'number' ? data.prediction / 4 :
parseFloat(data.prediction) / 4`. -/
def predictionScore : PredValue → JSNum
  | .num q => .finite (q / 4)
  | .str s =>
      match parseFloat s with
      | some q => .finite (q / 4)
      | none => .nan

/-- The score `analyze` would derive from the body: an absent
`prediction` coerces to `NaN` (`parseFloat(undefined)` is `NaN`). -/
def derivedScore (d : BackendData) : JSNum :=
  match d.prediction with
  | some p => predictionScore p
  | none => .nan

/-- The validation and normalisation part of `analyze` (source lines
60–78): reject a falsy `mood` or `undefined` `prediction`, reject a
`NaN` score, else store the lowercased mood and the scaled score. -/
def analyzeNormalize (d : BackendData) : Except String PredictionResult :=
  if !jsTruthyStr d.mood || d.prediction.isNone then
    Except.error "Unexpected response format from backend"
  else
    match derivedScore d with
    | .nan => Except.error "Invalid prediction value"
    | .finite q => Except.ok { mood := jsToLower (d.mood.getD ""), score := q }

/-- An HTTP response as `analyze` observes it: status, `statusText`,
the body as text (read on the error path), and the body as JSON
(`Except.error` models a `res.json()` rejection on a malformed body). -/
structure HTTPResponse where
  status : Nat
  statusText : String
  bodyText : String
  json : Except String BackendData
  deriving Repr

/-- Outcome of the `fetch` call: rejection (network failure, carrying
the `Error` message) or a settled HTTP response. -/
inductive FetchResult where
  | failure (msg : String)
  | response (r : HTTPResponse)
  deriving Repr

/-- `res.ok`: status in the 2xx range. -/
def responseOk (r : HTTPResponse) : Bool :=
  200 ≤ r.status && r.status ≤ 299

/-- The message of the error thrown on `!res.ok` (source line 55):
`Backend error: ${res.status} - ${errorText || res.statusText}`. -/
def backendErrorMessage (r : HTTPResponse) : String :=
  "Backend error: " ++ toString r.status ++ " - "
    ++ (if r.bodyText != "" then r.bodyText else r.statusText)

/-- The synchronous start of `analyze` (source lines 41–43):
`setLoading(true); setError(""); setResult(null)`. -/
def analyzeStart (s : UIState) : UIState :=
  { s with loading := true, error := "", result := none }

/-- The remainder of `analyze` after the awaited fetch settles (source
lines 45–94): the try/catch maps every thrown `Error` message into the
`error` state, a normalisable body into `result` (with the `[result]`
effect applied), and the `finally` clears `loading`. -/
def analyzeFinish (s : UIState) (f : FetchResult) : UIState :=
  let s2 :=
    match f with
    | .failure msg => { s with error := msg }
    | .response r =>
        if !responseOk r then
          { s with error := backendErrorMessage r }
        else
          match r.json with
          | .error msg => { s with error := msg }
          | .ok d =>
              match analyzeNormalize d with
              | .error msg => { s with error := msg }
              | .ok res => applyMoodEffect { s with result := some res }
  { s2 with loading := false }

/-- One whole `analyze` call, from invocation to settled promise. -/
def analyze (s : UIState) (f : FetchResult) : UIState :=
  analyzeFinish (analyzeStart s) f

/-- A 2xx response whose body parsed to `d` — the case in which the
normalizer runs. -/
def okResp (d : BackendData) : FetchResult :=
  .response { status := 200, statusText := "OK", bodyText := "", json := .ok d }

/-- The fields of `React.KeyboardEvent` the page reads. -/
structure KeyEvent where
  key : String
  shiftKey : Bool
  deriving DecidableEq, Repr

/-- Number of `analyze()` invocations `handleKeyDown` makes for one key
event (source lines 97–104): one exactly when the key is Enter without
Shift, the trimmed text is non-empty and `loading` is false. -/
def handleKeyDownCalls (s : UIState) (e : KeyEvent) : Nat :=
  if e.key == "Enter" && !e.shiftKey then
    if jsTrim s.text != "" && !s.loading then 1 else 0
  else 0

/-- `disabled={loading || !text.trim()}` on the submit button
(source line 173). -/
def buttonDisabled (s : UIState) : Bool :=
  s.loading || jsTrim s.text == ""

/-- Number of `analyze()` invocations a click on the submit button
makes: a disabled button fires no `onClick`. -/
def clickCalls (s : UIState) : Nat :=
  if buttonDisabled s then 0 else 1

/-- `resetForm` (source lines 106–113): clear text, result and error,
then focus the textarea when its ref is populated. -/
def resetForm (s : UIState) : UIState :=
  let s1 := { s with text := "", result := none, error := "" }
  if s1.textareaMounted then { s1 with inputFocused := true } else s1

/-- The textarea's `onChange` handler: `setText(e.target.value)`. -/
def setTextInput (s : UIState) (v : String) : UIState :=
  { s with text := v }

/-- The error text the inline alert renders (source line 218: `{error}`,
shown verbatim). -/
def displayedError (s : UIState) : String := s.error

/-- The emoji the result card renders (source line 254):
`moodEmojis[result.mood?.toLowerCase()] || "😄"`. -/
def displayedEmoji (r : PredictionResult) : String :=
  lookupOrDefault moodEmojis (jsToLower r.mood) "😄"

/-- States the view can reach: the initial render, typing while the
textarea is enabled, starting `analyze` through the button or the key
handler when their guards pass, an in-flight `analyze` settling, and
`resetForm` from the error alert or the result card. -/
inductive Reachable : UIState → Prop where
  | start : Reachable initialState
  | input (s : UIState) (v : String) : Reachable s → s.loading = false →
      Reachable (setTextInput s v)
  | click (s : UIState) : Reachable s → buttonDisabled s = false →
      Reachable (analyzeStart s)
  | keydown (s : UIState) (e : KeyEvent) : Reachable s → handleKeyDownCalls s e = 1 →
      Reachable (analyzeStart s)
  | settle (s : UIState) (f : FetchResult) : Reachable s → s.loading = true →
      Reachable (analyzeFinish s f)
  | reset (s : UIState) : Reachable s → Reachable (resetForm s)

/-! ## Helper lemmas -/

theorem applyMoodEffect_fields (s : UIState) :
    (applyMoodEffect s).result = s.result ∧ (applyMoodEffect s).error = s.error ∧
    (applyMoodEffect s).loading = s.loading ∧ (applyMoodEffect s).text = s.text ∧
    (applyMoodEffect s).textareaMounted = s.textareaMounted ∧
    (applyMoodEffect s).inputFocused = s.inputFocused := by
  unfold applyMoodEffect
  rcases hr : s.result with _ | r
  · simp [hr]
  · by_cases h : r.mood != "" <;> simp [h, hr]

@[simp] theorem applyMoodEffect_result (s : UIState) :
    (applyMoodEffect s).result = s.result := (applyMoodEffect_fields s).1

@[simp] theorem applyMoodEffect_error (s : UIState) :
    (applyMoodEffect s).error = s.error := (applyMoodEffect_fields s).2.1

@[simp] theorem applyMoodEffect_textareaMounted (s : UIState) :
    (applyMoodEffect s).textareaMounted = s.textareaMounted :=
  (applyMoodEffect_fields s).2.2.2.2.1

theorem char_ofNat_toNat_of_lt (n : Nat) (h : n < 55296) : (Char.ofNat n).toNat = n := by
  have hv : n.isValidChar := Or.inl h
  rw [Char.ofNat, dif_pos hv]
  rfl

theorem char_toLower_idem (c : Char) : c.toLower.toLower = c.toLower := by
  unfold Char.toLower
  by_cases h : c.toNat ≥ 65 ∧ c.toNat ≤ 90
  · rw [if_pos h]
    have h2 : (Char.ofNat (c.toNat + 32)).toNat = c.toNat + 32 :=
      char_ofNat_toNat_of_lt _ (by omega)
    rw [if_neg (by rw [h2]; omega)]
  · rw [if_neg h, if_neg h]

theorem jsToLower_idem (s : String) : jsToLower (jsToLower s) = jsToLower s := by
  unfold jsToLower
  congr 1
  show (s.data.map Char.toLower).map Char.toLower = s.data.map Char.toLower
  rw [List.map_map]
  exact List.map_congr_left fun c _ => char_toLower_idem c

theorem jsToLower_ne_empty (m : String) (hm : m ≠ "") : jsToLower m ≠ "" := by
  intro h
  apply hm
  have h1 : m.data.map Char.toLower = [] := congrArg String.data h
  have h2 : m.data = [] := List.map_eq_nil_iff.mp h1
  cases m
  simp_all

theorem normalize_error_cases (d : BackendData)
    (h : jsTruthyStr d.mood = false ∨ derivedScore d = JSNum.nan) :
    ∃ msg, analyzeNormalize d = Except.error msg ∧ msg ≠ "" := by
  unfold analyzeNormalize
  rcases h with h | h
  · exact ⟨"Unexpected response format from backend", by simp [h], by decide⟩
  · rcases hp : d.prediction with _ | p
    · exact ⟨"Unexpected response format from backend", by simp [hp], by decide⟩
    · cases hm : jsTruthyStr d.mood
      · exact ⟨"Unexpected response format from backend", by simp [hm], by decide⟩
      · exact ⟨"Invalid prediction value", by simp [hm, hp, h], by decide⟩

theorem normalize_ok_of (d : BackendData) (h1 : jsTruthyStr d.mood = true) (q : ℚ)
    (h2 : derivedScore d = JSNum.finite q) :
    analyzeNormalize d = Except.ok { mood := jsToLower (d.mood.getD ""), score := q } := by
  have hp : d.prediction.isNone = false := by
    rcases hp : d.prediction with _ | p
    · rw [derivedScore, hp] at h2
      cases h2
    · simp [hp]
  simp [analyzeNormalize, h1, hp, h2]

theorem responseOk_okResp (d : BackendData) :
    responseOk { status := 200, statusText := "OK", bodyText := "", json := Except.ok d } = true :=
  rfl

theorem analyze_okResp_of_error (s : UIState) (d : BackendData) (msg : String)
    (h : analyzeNormalize d = Except.error msg) :
    (analyze s (okResp d)).result = none ∧ (analyze s (okResp d)).error = msg := by
  simp [analyze, okResp, analyzeFinish, analyzeStart, responseOk, h]

theorem analyze_okResp_of_ok (s : UIState) (d : BackendData) (res : PredictionResult)
    (h : analyzeNormalize d = Except.ok res) :
    (analyze s (okResp d)).result = some res ∧ (analyze s (okResp d)).error = "" := by
  simp [analyze, okResp, analyzeFinish, analyzeStart, responseOk, h]

theorem analyze_okResp_moodColor_of_ok (s : UIState) (d : BackendData) (res : PredictionResult)
    (h : analyzeNormalize d = Except.ok res) (hm : res.mood ≠ "") :
    (analyze s (okResp d)).moodColor = lookupOrDefault moodColors res.mood defaultMoodColor := by
  simp [analyze, okResp, analyzeFinish, analyzeStart, responseOk, h, applyMoodEffect, hm]

theorem analyzeFinish_loading (s : UIState) (f : FetchResult) :
    (analyzeFinish s f).loading = false :=
  rfl

theorem analyzeFinish_inv (s : UIState) (f : FetchResult) (hres : s.result = none)
    (herr : s.error = "") :
    ((analyzeFinish s f).result = none ∨ (analyzeFinish s f).error = "") ∧
    (analyzeFinish s f).textareaMounted = s.textareaMounted := by
  rcases f with msg | r
  · exact ⟨Or.inl (by simp [analyzeFinish, hres]), rfl⟩
  · unfold analyzeFinish
    cases hok : responseOk r
    · exact ⟨Or.inl (by simp [hok, hres]), by simp [hok]⟩
    · rcases hj : r.json with msg | d
      · exact ⟨Or.inl (by simp [hok, hj, hres]), by simp [hok, hj]⟩
      · rcases hn : analyzeNormalize d with msg | res
        · exact ⟨Or.inl (by simp [hok, hj, hn, hres]), by simp [hok, hj, hn]⟩
        · exact ⟨Or.inr (by simp [hok, hj, hn, herr]), by simp [hok, hj, hn]⟩

theorem reachable_inv (s : UIState) (h : Reachable s) :
    (s.result = none ∨ s.error = "") ∧
    (s.loading = true → s.result = none ∧ s.error = "") ∧
    s.textareaMounted = true := by
  induction h with
  | start => exact ⟨Or.inl rfl, fun _ => ⟨rfl, rfl⟩, rfl⟩
  | input s v hr hl ih => simpa [setTextInput] using ih
  | click s hr hd ih => exact ⟨Or.inl rfl, fun _ => ⟨rfl, rfl⟩, ih.2.2⟩
  | keydown s e hr hk ih => exact ⟨Or.inl rfl, fun _ => ⟨rfl, rfl⟩, ih.2.2⟩
  | settle s f hr hl ih =>
      have hres : s.result = none := (ih.2.1 hl).1
      have herr : s.error = "" := (ih.2.1 hl).2
      have hfin := analyzeFinish_inv s f hres herr
      refine ⟨hfin.1, fun hload => ?_, hfin.2.trans ih.2.2⟩
      rw [analyzeFinish_loading] at hload
      cases hload
  | reset s hr ih =>
      unfold resetForm
      have hm : s.textareaMounted = true := ih.2.2
      simp [hm]

/-! ## Claim theorems -/

/-- C1: for a 2xx backend body carrying a (truthy) `mood` string and a
numeric `prediction` field, `analyze` stores `score = prediction / 4`,
so every `prediction ∈ [0,4]` yields a stored score in `[0,1]`. -/
theorem analyze_prediction_scaled_score (s : UIState) (m : String) (q : ℚ)
    (hm : m ≠ "") (h0 : 0 ≤ q) (h4 : q ≤ 4) :
    ∃ r : PredictionResult,
      (analyze s (okResp { mood := some m, prediction := some (PredValue.num q) })).result
        = some r ∧
      r.score = q / 4 ∧ 0 ≤ r.score ∧ r.score ≤ 1 := by
  have h1 : jsTruthyStr (some m) = true := by simp [jsTruthyStr, hm]
  have h2 : derivedScore { mood := some m, prediction := some (PredValue.num q) }
      = JSNum.finite (q / 4) := rfl
  have hn := normalize_ok_of _ h1 _ h2
  refine ⟨_, (analyze_okResp_of_ok s _ _ hn).1, rfl, ?_, ?_⟩
  · exact div_nonneg h0 (by norm_num)
  · rw [div_le_one (by norm_num)]
    linarith

theorem analyze_prediction_scaled_score_witness :
    ∃ r : PredictionResult,
      (analyze initialState
        (okResp { mood := some "Happy", prediction := some (PredValue.num 3) })).result
        = some r ∧
      r.score = 3 / 4 ∧ 0 ≤ r.score ∧ r.score ≤ 1 :=
  analyze_prediction_scaled_score initialState "Happy" 3 (by decide) (by norm_num) (by norm_num)

/-- C2: on a 2xx response body, `analyze` raises a normalization error
(non-empty `error`) exactly when the `mood` field is falsy or the
derived score is `NaN`, and in that case `result` stays `null`. -/
theorem analyze_normalization_error_iff (s : UIState) (d : BackendData) :
    ((analyze s (okResp d)).error ≠ "" ↔
      (jsTruthyStr d.mood = false ∨ derivedScore d = JSNum.nan)) ∧
    ((jsTruthyStr d.mood = false ∨ derivedScore d = JSNum.nan) →
      (analyze s (okResp d)).result = none) := by
  by_cases h : jsTruthyStr d.mood = false ∨ derivedScore d = JSNum.nan
  · obtain ⟨msg, hmsg, hne⟩ := normalize_error_cases d h
    obtain ⟨hres, herr⟩ := analyze_okResp_of_error s d msg hmsg
    exact ⟨by rw [herr]; exact ⟨fun _ => h, fun _ => hne⟩, fun _ => hres⟩
  · push_neg at h
    have h1 : jsTruthyStr d.mood = true := by
      cases hb : jsTruthyStr d.mood
      · exact absurd hb h.1
      · rfl
    cases hd : derivedScore d with
    | nan => exact absurd hd h.2
    | finite q =>
        have hn := normalize_ok_of d h1 q hd
        obtain ⟨hres, herr⟩ := analyze_okResp_of_ok s d _ hn
        refine ⟨⟨fun hc => absurd herr hc, fun hc => ?_⟩, fun hc => ?_⟩
        · rcases hc with hc | hc
          · exact absurd hc h.1
          · exact JSNum.noConfusion hc
        · rcases hc with hc | hc
          · exact absurd hc h.1
          · exact JSNum.noConfusion hc

theorem analyze_normalization_error_iff_witness :
    (analyze initialState (okResp { mood := none, prediction := some (PredValue.num 2) })).error
      ≠ "" ∧
    (analyze initialState (okResp { mood := none, prediction := some (PredValue.num 2) })).result
      = none := by
  have h := analyze_normalization_error_iff initialState
    { mood := none, prediction := some (PredValue.num 2) }
  exact ⟨h.1.mpr (Or.inl rfl), h.2 (Or.inl rfl)⟩

/-- C4: with empty or whitespace-only text, neither a click on the
submit button (it is disabled) nor any key press makes the key handler
or click handler invoke `analyze`, hence no network call happens. -/
theorem blank_text_no_network_call (s : UIState) (h : jsTrim s.text = "") :
    clickCalls s = 0 ∧ ∀ e : KeyEvent, handleKeyDownCalls s e = 0 := by
  constructor
  · simp [clickCalls, buttonDisabled, h]
  · intro e
    simp [handleKeyDownCalls, h]

theorem blank_text_no_network_call_witness :
    clickCalls { initialState with text := "   " } = 0 ∧
    handleKeyDownCalls { initialState with text := "   " }
      { key := "Enter", shiftKey := false } = 0 := by
  have h := blank_text_no_network_call { initialState with text := "   " } (by decide)
  exact ⟨h.1, h.2 { key := "Enter", shiftKey := false }⟩

/-- C5: Enter without Shift, with non-blank trimmed text and `loading`
false, makes `handleKeyDown` invoke `analyze` exactly once; with Shift
held it never invokes it. -/
theorem enter_submits_once_shift_never (s : UIState) (e : KeyEvent) :
    (e.key = "Enter" → e.shiftKey = false → jsTrim s.text ≠ "" → s.loading = false →
      handleKeyDownCalls s e = 1) ∧
    (e.shiftKey = true → handleKeyDownCalls s e = 0) := by
  constructor
  · intro hk hs ht hl
    simp [handleKeyDownCalls, hk, hs, ht, hl]
  · intro hs
    simp [handleKeyDownCalls, hs]

theorem enter_submits_once_shift_never_witness :
    handleKeyDownCalls { initialState with text := "hi" }
      { key := "Enter", shiftKey := false } = 1 ∧
    handleKeyDownCalls { initialState with text := "hi" }
      { key := "Enter", shiftKey := true } = 0 :=
  ⟨(enter_submits_once_shift_never { initialState with text := "hi" }
      { key := "Enter", shiftKey := false }).1 rfl rfl (by decide) rfl,
   (enter_submits_once_shift_never { initialState with text := "hi" }
      { key := "Enter", shiftKey := true }).2 rfl⟩

/-- C6: on any non-2xx response, `analyze` leaves `result` null and
surfaces the thrown message — status plus the response body text (or
`statusText` when that body is empty) — verbatim in the rendered
error. -/
theorem http_error_shown_verbatim (s : UIState) (r : HTTPResponse)
    (h : responseOk r = false) :
    (analyze s (FetchResult.response r)).result = none ∧
    displayedError (analyze s (FetchResult.response r)) = backendErrorMessage r ∧
    (r.bodyText ≠ "" → displayedError (analyze s (FetchResult.response r)) =
      "Backend error: " ++ toString r.status ++ " - " ++ r.bodyText) := by
  refine ⟨?_, ?_, fun hb => ?_⟩
  · simp [analyze, analyzeFinish, analyzeStart, h]
  · simp [displayedError, analyze, analyzeFinish, analyzeStart, h]
  · simp [displayedError, analyze, analyzeFinish, analyzeStart, h, backendErrorMessage, hb]

theorem http_error_shown_verbatim_witness :
    (analyze initialState (FetchResult.response
      { status := 500, statusText := "Server Error", bodyText := "boom",
        json := Except.error "bad json" })).result = none ∧
    displayedError (analyze initialState (FetchResult.response
      { status := 500, statusText := "Server Error", bodyText := "boom",
        json := Except.error "bad json" })) = "Backend error: 500 - boom" := by
  have h := http_error_shown_verbatim initialState
    { status := 500, statusText := "Server Error", bodyText := "boom",
      json := Except.error "bad json" } (by decide)
  exact ⟨h.1, h.2.2 (by decide)⟩

/-- C9: every settled `analyze` call — success, HTTP error, malformed
body, normalization failure or network failure — ends with `loading`
false (the `finally` block), so the form is never left disabled. -/
theorem analyze_always_clears_loading (s : UIState) (f : FetchResult) :
    (analyze s f).loading = false :=
  rfl

/-- C3: in every reachable view state, a non-null `result` comes with
an empty `error` and a non-empty `error` comes with a null `result`;
and every `analyze` call clears both before its outcome is written. -/
theorem reachable_result_error_exclusive (s : UIState) (h : Reachable s) :
    (s.result ≠ none → s.error = "") ∧ (s.error ≠ "" → s.result = none) ∧
    (∀ t : UIState, (analyzeStart t).result = none ∧ (analyzeStart t).error = "") := by
  have hinv := (reachable_inv s h).1
  refine ⟨fun hr => ?_, fun he => ?_, fun t => ⟨rfl, rfl⟩⟩
  · rcases hinv with h1 | h1
    · exact absurd h1 hr
    · exact h1
  · rcases hinv with h1 | h1
    · exact h1
    · exact absurd h1 he

theorem reachable_result_error_exclusive_witness :
    (analyzeStart initialState).result = none ∧ (analyzeStart initialState).error = "" :=
  (reachable_result_error_exclusive initialState Reachable.start).2.2 initialState

/-- C7: on every successful response the stored mood is the lowercased
backend label; the emoji lookup key (the render lowercases again) and
the gradient lookup key of the `[result]` effect are both exactly that
lowercased label. -/
theorem mood_lowercased_for_lookup (s : UIState) (m : String) (p : PredValue) (q : ℚ)
    (hm : m ≠ "") (hp : predictionScore p = JSNum.finite q) :
    ∃ r : PredictionResult,
      (analyze s (okResp { mood := some m, prediction := some p })).result = some r ∧
      r.mood = jsToLower m ∧
      displayedEmoji r = lookupOrDefault moodEmojis (jsToLower m) "😄" ∧
      (analyze s (okResp { mood := some m, prediction := some p })).moodColor =
        lookupOrDefault moodColors (jsToLower m) defaultMoodColor := by
  have h1 : jsTruthyStr (some m) = true := by simp [jsTruthyStr, hm]
  have h2 : derivedScore { mood := some m, prediction := some p } = JSNum.finite q := hp
  have hn := normalize_ok_of _ h1 q h2
  refine ⟨_, (analyze_okResp_of_ok s _ _ hn).1, rfl, ?_, ?_⟩
  · simp [displayedEmoji, jsToLower_idem]
  · exact analyze_okResp_moodColor_of_ok s _ _ hn (jsToLower_ne_empty m hm)

theorem mood_lowercased_for_lookup_witness :
    ∃ r : PredictionResult,
      (analyze initialState
        (okResp { mood := some "Happy", prediction := some (PredValue.num 2) })).result
        = some r ∧
      r.mood = jsToLower "Happy" ∧
      displayedEmoji r = lookupOrDefault moodEmojis (jsToLower "Happy") "😄" ∧
      (analyze initialState
        (okResp { mood := some "Happy", prediction := some (PredValue.num 2) })).moodColor =
        lookupOrDefault moodColors (jsToLower "Happy") defaultMoodColor :=
  mood_lowercased_for_lookup initialState "Happy" (PredValue.num 2) (2 / 4) (by decide) rfl

/-- C8: from any reachable state, `resetForm` restores text, result and
error to their initial values and focuses the textarea. -/
theorem reset_clears_to_initial (s : UIState) (h : Reachable s) :
    (resetForm s).text = "" ∧ (resetForm s).result = none ∧ (resetForm s).error = "" ∧
    (resetForm s).inputFocused = true := by
  have hm := (reachable_inv s h).2.2
  unfold resetForm
  simp [hm]

theorem reset_clears_to_initial_witness :
    (resetForm (analyzeFinish (analyzeStart (setTextInput initialState "hi"))
        (FetchResult.failure "boom"))).text = "" ∧
    (resetForm (analyzeFinish (analyzeStart (setTextInput initialState "hi"))
        (FetchResult.failure "boom"))).result = none ∧
    (resetForm (analyzeFinish (analyzeStart (setTextInput initialState "hi"))
        (FetchResult.failure "boom"))).error = "" ∧
    (resetForm (analyzeFinish (analyzeStart (setTextInput initialState "hi"))
        (FetchResult.failure "boom"))).inputFocused = true :=
  reset_clears_to_initial _
    (Reachable.settle _ _
      (Reachable.click _ (Reachable.input _ "hi" Reachable.start rfl) (by decide)) rfl)

/-- C10: `resetForm` leaves `moodColor` unchanged — the last mood's
gradient persists after reset — and neither typing, starting `analyze`,
nor an `analyze` call that produces no result changes it. -/
theorem reset_preserves_moodColor_frame (s : UIState) (v : String) (f : FetchResult) :
    (resetForm s).moodColor = s.moodColor ∧
    (setTextInput s v).moodColor = s.moodColor ∧
    (analyzeStart s).moodColor = s.moodColor ∧
    ((analyze s f).result = none → (analyze s f).moodColor = s.moodColor) := by
  refine ⟨?_, rfl, rfl, ?_⟩
  · unfold resetForm
    by_cases h : s.textareaMounted <;> simp [h]
  · rcases f with msg | r
    · intro _
      rfl
    · cases hok : responseOk r
      · intro _
        simp [analyze, analyzeFinish, analyzeStart, hok]
      · rcases hj : r.json with msg | d
        · intro _
          simp [analyze, analyzeFinish, analyzeStart, hok, hj]
        · rcases hn : analyzeNormalize d with msg | res
          · intro _
            simp [analyze, analyzeFinish, analyzeStart, hok, hj, hn]
          · intro hres
            exfalso
            have hsome : (analyze s (FetchResult.response r)).result = some res := by
              simp [analyze, analyzeFinish, analyzeStart, hok, hj, hn]
            rw [hsome] at hres
            cases hres

theorem reset_preserves_moodColor_frame_witness :
    (resetForm { initialState with moodColor := "from-green-300 to-green-500" }).moodColor =
      "from-green-300 to-green-500" ∧
    (analyze { initialState with moodColor := "from-green-300 to-green-500" }
      (FetchResult.failure "boom")).moodColor = "from-green-300 to-green-500" := by
  have h := reset_preserves_moodColor_frame
    { initialState with moodColor := "from-green-300 to-green-500" } "v"
    (FetchResult.failure "boom")
  exact ⟨h.1, h.2.2.2 rfl⟩

end Moodify
